import Mathlib

/-!
Shallow embedding of `deepmusic/model.py` (class `Model`): symbolic
construction of the computational graph for a recurrent music-generation
network, and the `step` method that returns the operation handles and the
feed dictionary for one training or generation pass.

The external tensor engine is represented symbolically: a tensor is an
abstract-syntax-tree node, a recurrent-cell application is an opaque
`cellOut` node, and the recurrent state is threaded explicitly.  Numeric
execution never happens in the source component either; it only wires the
graph, which is exactly what the embedding captures.
-/

namespace DeepMusic

/-- Modelled from the spec: `music.NB_NOTES` comes from `deepmusic/songstruct.py`,
which is not part of the sources at hand.  The spec describes it as the fixed
note-vector width, "total distinct playable notes in the supported range";
the concrete count is unspecified, modelled here as 88 (a full piano range).
No claim depends on the particular value. -/
def NB_NOTES : Nat := 88

/-- The configuration record `args` handed to `Model.__init__`: the fields the
source reads (`batch_size`, `sample_length`, `hidden_size`, `num_layers`,
`learning_rate`, `test`). -/
structure Args where
  batch_size : Nat
  sample_length : Nat
  hidden_size : Nat
  num_layers : Nat
  learning_rate : Rat
  test : Bool
deriving DecidableEq, Repr

/-- Symbolic tensor-graph nodes.  `placeholder` carries its name-scope group
("input" or "target"), its index within the group, and its shape;
`tfVariable` is a `tf.get_variable` node; `cellOut` is the opaque output of
applying the recurrent cell stack to an input and a state; `zeroState` and
`nextState` represent the cell state thread. -/
inductive Tensor where
  | placeholder (group : String) (idx : Nat) (shape : List Nat)
  | tfVariable (scope : String) (vname : String) (shape : List Nat)
  | matmul (a b : Tensor)
  | add (a b : Tensor)
  | mul (a b : Tensor)
  | sub (a b : Tensor)
  | sigmoid (a : Tensor)
  | lit (n : Nat)
  | ones (shape : List Nat)
  | cellOut (inp st : Tensor)
  | zeroState (num_layers hidden_size batch_size : Nat)
  | nextState (inp st : Tensor)
deriving DecidableEq, Repr

/-- The input placeholders: one per time step, shape
`[batch_size, NB_NOTES]` (source lines 60-65). -/
def input_placeholders (args : Args) : List Tensor :=
  (List.range args.sample_length).map
    (fun i => Tensor.placeholder "input" i [args.batch_size, NB_NOTES])

/-- The target placeholders: one per time step, shape
`[batch_size, NB_NOTES]` (source lines 66-71); built unconditionally,
in both modes. -/
def target_placeholders (args : Args) : List Tensor :=
  (List.range args.sample_length).map
    (fun i => Tensor.placeholder "target" i [args.batch_size, NB_NOTES])

/-- The shared projection weight `W` (scope `note_projection`, shape
`[hidden_size, NB_NOTES]`, source lines 75-79). -/
def note_projection_W (args : Args) : Tensor :=
  Tensor.tfVariable "note_projection" "weights" [args.hidden_size, NB_NOTES]

/-- The shared projection bias `b` (scope `note_projection`, shape
`[NB_NOTES]`, source lines 80-84). -/
def note_projection_b (_args : Args) : Tensor :=
  Tensor.tfVariable "note_projection" "bias" [NB_NOTES]

/-- `project_note(X) = tf.matmul(X, W) + b` (source lines 86-87), closing over
the one shared `W` and `b`. -/
def project_note (args : Args) (X : Tensor) : Tensor :=
  Tensor.add (Tensor.matmul X (note_projection_W args)) (note_projection_b args)

/-- `rnn_cell.zero_state(batch_size, float32)` for the `num_layers`-deep
LSTM stack (source lines 90-95). -/
def initial_state (args : Args) : Tensor :=
  Tensor.zeroState args.num_layers args.hidden_size args.batch_size

/-- The loop function `loop_rnn(prev, i)` (source lines 97-111): in test
(generation) mode it projects the previous raw cell output and rescales it by
`2*sigmoid(out) - 1`; in training mode it returns `self.inputs[i]`. -/
def loop_rnn (args : Args) (prev : Tensor) (i : Nat) : Tensor :=
  if args.test then
    Tensor.sub (Tensor.mul (Tensor.lit 2) (Tensor.sigmoid (project_note args prev)))
      (Tensor.lit 1)
  else
    (input_placeholders args).getD i (Tensor.lit 0)

/-- The body of the external engine's sequence decoder
(`tf.nn.seq2seq.rnn_decoder`, an external-library collaborator; spec section 6
describes it as "a sequence decoder that threads a per-step transition/loop
function").  Following the classic seq2seq implementation: it walks the
decoder inputs with index `i`, and whenever a previous output exists the
supplied loop function replaces the provided input; each step applies the
cell to the effective input and the running state. -/
def rnn_decoder_loop (loop_function : Tensor → Nat → Tensor) :
    List Tensor → Nat → Tensor → Option Tensor → List Tensor × Tensor
  | [], _, state, _ => ([], state)
  | inp :: rest, i, state, prev =>
    let inpEff :=
      match prev with
      | some p => loop_function p i
      | none => inp
    let output := Tensor.cellOut inpEff state
    let r := rnn_decoder_loop loop_function rest (i + 1) (Tensor.nextState inpEff state)
      (some output)
    (output :: r.1, r.2)

/-- `tf.nn.seq2seq.rnn_decoder(decoder_inputs, initial_state, cell,
loop_function)`: returns the list of per-step raw cell outputs and the final
state. -/
def rnn_decoder (decoder_inputs : List Tensor) (st : Tensor)
    (loop_function : Tensor → Nat → Tensor) : List Tensor × Tensor :=
  rnn_decoder_loop loop_function decoder_inputs 0 st none

/-- The raw (pre-projection) per-step outputs of the decoder call at source
lines 113-118. -/
def rnn_raw_outputs (args : Args) : List Tensor :=
  (rnn_decoder (input_placeholders args) (initial_state args) (loop_rnn args)).1

/-- The final recurrent state returned by the decoder call. -/
def rnn_final_state (args : Args) : Tensor :=
  (rnn_decoder (input_placeholders args) (initial_state args) (loop_rnn args)).2

/-- `self.outputs`: the shared projection applied to every raw decoder output
(source lines 121-125). -/
def final_outputs (args : Args) : List Tensor :=
  (rnn_raw_outputs args).map (project_note args)

/-- The per-step loss primitive handed to `sequence_loss`:
`tf.nn.sigmoid_cross_entropy_with_logits`. -/
inductive LossFn where
  | sigmoid_cross_entropy_with_logits
deriving DecidableEq, Repr

/-- A `tf.nn.seq2seq.sequence_loss(...)` node: logits, targets, weights and
the per-step loss function (source lines 139-144). -/
structure SequenceLoss where
  logits : List Tensor
  targets : List Tensor
  weights : List Tensor
  softmax_loss_function : LossFn
deriving DecidableEq, Repr

/-- An optimizer-step operation: `tf.train.AdamOptimizer(...).minimize(loss)`
with its learning rate, decay coefficients, epsilon and the minimized loss
(source lines 148-154). -/
inductive Op where
  | adamMinimize (learning_rate beta1 beta2 epsilon : Rat) (loss : SequenceLoss)
deriving DecidableEq, Repr

/-- `tensor.get_shape()`, used on the placeholder `self.targets[0]` at source
line 142. -/
def get_shape : Tensor → List Nat
  | Tensor.placeholder _ _ s => s
  | Tensor.tfVariable _ _ s => s
  | _ => []

/-- `loss_fct` (source lines 139-144): `sequence_loss` over `self.outputs` and
`self.targets` with one all-ones weight tensor per target slot, shaped like
`self.targets[0]`, and sigmoid cross-entropy as the per-step loss. -/
def loss_fct (args : Args) : SequenceLoss where
  logits := final_outputs args
  targets := target_placeholders args
  weights := (List.range (target_placeholders args).length).map
    (fun _ => Tensor.ones (get_shape ((target_placeholders args).getD 0 (Tensor.lit 0))))
  softmax_loss_function := LossFn.sigmoid_cross_entropy_with_logits

/-- `self.opt_op` after `_build_network` (source lines 127-154): `None` in
test mode; the Adam minimization step over `loss_fct` in training mode, with
the configured learning rate, `beta1 = 0.9`, `beta2 = 0.999`,
`epsilon = 1e-08`. -/
def opt_op_built (args : Args) : Option Op :=
  if args.test then none
  else
    some (Op.adamMinimize args.learning_rate ((9 : Rat) / 10) ((999 : Rat) / 1000)
      ((1 : Rat) / 100000000) (loss_fct args))

/-- The `Model` object after `__init__` has run `_build_network`: its fields
`args`, `inputs`, `targets`, `opt_op`, `outputs`, `final_state`. -/
structure Model where
  args : Args
  inputs : List Tensor
  targets : List Tensor
  opt_op : Option Op
  outputs : List Tensor
  final_state : Tensor
deriving DecidableEq, Repr

/-- `Model(args)`: constructing the model builds the whole graph once
(source lines 34-154). -/
def Model.build (args : Args) : Model where
  args := args
  inputs := input_placeholders args
  targets := target_placeholders args
  opt_op := opt_op_built args
  outputs := final_outputs args
  final_state := rnn_final_state args

/-- A per-step data array fed into a placeholder: a `batch_size`-long list of
note vectors of rationals. -/
abbrev Value := List (List Rat)

/-- The feed dictionary built by `Model.step`: a python `dict` keyed by
placeholder tensors, modelled as an association list with replace-on-repeat
insertion. -/
abbrev FeedDict := List (Tensor × Value)

/-- `feed_dict[k] = v` on a python dict: replace the binding if the key is
already present, otherwise append it. -/
def fdInsert (fd : FeedDict) (k : Tensor) (v : Value) : FeedDict :=
  if fd.any (fun p => decide (p.1 = k)) then
    fd.map (fun p => if p.1 = k then (k, v) else p)
  else
    fd ++ [(k, v)]

/-- Modelled from the spec: `Batch` comes from `deepmusic/musicdata.py`, which
is not part of the sources at hand.  Spec section 6 describes it as "a batch
record with ordered per-step input arrays (training: also ordered per-step
target arrays)"; `targets` is an `Option` so that a record lacking the
attribute altogether can be expressed (spec section 7, mode misuse). -/
structure Batch where
  inputs : List Value
  targets : Option (List Value)
deriving DecidableEq, Repr

/-- The training-mode binding loop of `Model.step` (source lines 171-173):
`for i in range(sample_length)`, bind `inputs[i]` and `targets[i]` to the
batch arrays.  Indexing past the end of a batch list is a python
`IndexError`; a batch without a `targets` attribute is an `AttributeError`. -/
def feed_train_loop (M : Model) (batch : Batch) :
    Nat → Nat → FeedDict → Except String FeedDict
  | _, 0, fd => Except.ok fd
  | i, k + 1, fd =>
    match batch.inputs[i]?, batch.targets with
    | some xi, some tgs =>
      match tgs[i]? with
      | some ti =>
        feed_train_loop M batch (i + 1) k
          (fdInsert (fdInsert fd (M.inputs.getD i (Tensor.lit 0)) xi)
            (M.targets.getD i (Tensor.lit 0)) ti)
      | none => Except.error "IndexError"
    | none, _ => Except.error "IndexError"
    | _, none => Except.error "AttributeError"

/-- A graph handle returned in the `ops` tuple of `Model.step`: either the
optimizer operation `(self.opt_op,)` or the output collection
`(self.outputs,)`. -/
inductive Handle where
  | op (o : Option Op)
  | outs (ts : List Tensor)
deriving DecidableEq, Repr

/-- `Model.step(batch)` (source lines 156-184), embedded with explicit state
passing: the first component is the returned `(ops, feed_dict)` pair (or the
python exception), the second is the post-call state of `self` — the method
body assigns no field of `self`, so the state out is the state in. -/
def Model.step (M : Model) (batch : Batch) :
    Except String (List Handle × FeedDict) × Model :=
  if M.args.test = false then
    (match feed_train_loop M batch 0 M.args.sample_length [] with
      | Except.ok fd => Except.ok ([Handle.op M.opt_op], fd)
      | Except.error e => Except.error e,
     M)
  else
    (match batch.inputs[0]? with
      | some x0 =>
        Except.ok ([Handle.outs M.outputs],
          fdInsert [] (M.inputs.getD 0 (Tensor.lit 0)) x0)
      | none => Except.error "IndexError",
     M)

/-! ## Spec-side characterizations

The following definitions are written from the spec's description of the
step-transition rule (spec section 4, item 4), to be compared with the graph
the source builds.  They are not part of the embedding of the source. -/

/-- Spec-side: the generation-mode feedback map — previous raw cell output,
projected, then rescaled by `2*sigmoid - 1` into `[-1, 1]`. -/
def specGenFeedback (args : Args) (prev : Tensor) : Tensor :=
  Tensor.sub (Tensor.mul (Tensor.lit 2) (Tensor.sigmoid (project_note args prev)))
    (Tensor.lit 1)

/-- Spec-side: the generation-mode trace — for each time step, the effective
input fed to the cell and the state before the step.  Step 0 consumes the
externally supplied first input slot; step `t+1` consumes the feedback of the
previous raw output. -/
def specGenTrace (args : Args) : Nat → Tensor × Tensor
  | 0 => (Tensor.placeholder "input" 0 [args.batch_size, NB_NOTES], initial_state args)
  | t + 1 =>
    let p := specGenTrace args t
    (specGenFeedback args (Tensor.cellOut p.1 p.2), Tensor.nextState p.1 p.2)

/-- Spec-side: the effective input at step `t` in generation mode. -/
def specGenInput (args : Args) (t : Nat) : Tensor := (specGenTrace args t).1

/-- Spec-side: the recurrent state entering step `t` in generation mode. -/
def specGenState (args : Args) (t : Nat) : Tensor := (specGenTrace args t).2

/-- Spec-side: the raw cell output at step `t` in generation mode. -/
def specGenRaw (args : Args) (t : Nat) : Tensor :=
  Tensor.cellOut (specGenInput args t) (specGenState args t)

/-- Spec-side: the recurrent state entering step `t` in training mode, where
every step consumes its own externally supplied input slot. -/
def specTrainState (args : Args) : Nat → Tensor
  | 0 => initial_state args
  | t + 1 =>
    Tensor.nextState (Tensor.placeholder "input" t [args.batch_size, NB_NOTES])
      (specTrainState args t)

/-- Spec-side: the raw cell output at step `t` in training mode. -/
def specTrainRaw (args : Args) (t : Nat) : Tensor :=
  Tensor.cellOut (Tensor.placeholder "input" t [args.batch_size, NB_NOTES])
    (specTrainState args t)

/-- Spec-side: the list of per-step values `raw t, raw (t+1), ..., raw (t+k-1)`
of a step-indexed family, used to characterize the decoder's output list. -/
def specOuts (raw : Nat → Tensor) : Nat → Nat → List Tensor
  | _, 0 => []
  | t, k + 1 => raw t :: specOuts raw (t + 1) k

/-- Whether the input placeholder of index `j` occurs anywhere in a tensor
expression. -/
def mentions_input (j : Nat) : Tensor → Bool
  | Tensor.placeholder g i _ => decide (g = "input") && decide (i = j)
  | Tensor.matmul a b | Tensor.add a b | Tensor.mul a b | Tensor.sub a b
  | Tensor.cellOut a b | Tensor.nextState a b => mentions_input j a || mentions_input j b
  | Tensor.sigmoid a => mentions_input j a
  | Tensor.tfVariable _ _ _ | Tensor.lit _ | Tensor.ones _
  | Tensor.zeroState _ _ _ => false

/-- All `tfVariable` nodes occurring in a tensor expression. -/
def varsOf : Tensor → List Tensor
  | Tensor.tfVariable s n sh => [Tensor.tfVariable s n sh]
  | Tensor.matmul a b | Tensor.add a b | Tensor.mul a b | Tensor.sub a b
  | Tensor.cellOut a b | Tensor.nextState a b => varsOf a ++ varsOf b
  | Tensor.sigmoid a => varsOf a
  | Tensor.placeholder _ _ _ | Tensor.lit _ | Tensor.ones _
  | Tensor.zeroState _ _ _ => []

/-- Every variable node in the expression is the one shared projection weight
or the one shared projection bias. -/
def projVarsOnly (args : Args) (T : Tensor) : Bool :=
  (varsOf T).all
    (fun v => decide (v = note_projection_W args) || decide (v = note_projection_b args))

/-- Spec-side: the feed dictionary the training binding loop is expected to
produce from position `i` for `k` steps: input and target bindings
interleaved in loop order. -/
def expectedBinds (args : Args) (bi ts : List Value) : Nat → Nat → FeedDict
  | _, 0 => []
  | i, k + 1 =>
    (Tensor.placeholder "input" i [args.batch_size, NB_NOTES], bi.getD i []) ::
    (Tensor.placeholder "target" i [args.batch_size, NB_NOTES], ts.getD i []) ::
    expectedBinds args bi ts (i + 1) k

/-- Concrete generation-mode configuration from the spec's scenario:
batch 1, sample length 4, hidden 8, one layer. -/
def cfgGen : Args where
  batch_size := 1
  sample_length := 4
  hidden_size := 8
  num_layers := 1
  learning_rate := (1 : Rat) / 1000
  test := true

/-- The same configuration in training mode. -/
def cfgTrain : Args := { cfgGen with test := false }

/-- An all-zeros per-step data array for batch size 1. -/
def zeroNote : Value := List.replicate 1 (List.replicate NB_NOTES 0)

/-! ## Basic lemmas about the placeholder lists -/

theorem input_placeholders_length (args : Args) :
    (input_placeholders args).length = args.sample_length := by
  simp [input_placeholders]

theorem target_placeholders_length (args : Args) :
    (target_placeholders args).length = args.sample_length := by
  simp [target_placeholders]

theorem input_placeholders_getElem? (args : Args) (i : Nat) (h : i < args.sample_length) :
    (input_placeholders args)[i]? =
      some (Tensor.placeholder "input" i [args.batch_size, NB_NOTES]) := by
  simp [input_placeholders, List.getElem?_map, List.getElem?_range, h]

theorem target_placeholders_getElem? (args : Args) (i : Nat) (h : i < args.sample_length) :
    (target_placeholders args)[i]? =
      some (Tensor.placeholder "target" i [args.batch_size, NB_NOTES]) := by
  simp [target_placeholders, List.getElem?_map, List.getElem?_range, h]

theorem input_placeholders_getD (args : Args) (i : Nat) (h : i < args.sample_length)
    (d : Tensor) :
    (input_placeholders args).getD i d =
      Tensor.placeholder "input" i [args.batch_size, NB_NOTES] := by
  rw [List.getD_eq_getElem?_getD, input_placeholders_getElem? args i h, Option.getD_some]

theorem target_placeholders_getD (args : Args) (i : Nat) (h : i < args.sample_length)
    (d : Tensor) :
    (target_placeholders args).getD i d =
      Tensor.placeholder "target" i [args.batch_size, NB_NOTES] := by
  rw [List.getD_eq_getElem?_getD, target_placeholders_getElem? args i h, Option.getD_some]

/-! ## The decoder's output list -/

theorem rnn_decoder_loop_length (f : Tensor → Nat → Tensor) (L : List Tensor) :
    ∀ (i : Nat) (st : Tensor) (prev : Option Tensor),
      (rnn_decoder_loop f L i st prev).1.length = L.length := by
  induction L with
  | nil => intro i st prev; rfl
  | cons a L ih => intro i st prev; simp [rnn_decoder_loop, ih]

theorem specOuts_getElem? (raw : Nat → Tensor) :
    ∀ (k t j : Nat), (specOuts raw t k)[j]? = if j < k then some (raw (t + j)) else none := by
  intro k
  induction k with
  | zero => intro t j; simp [specOuts]
  | succ k ih =>
    intro t j
    cases j with
    | zero => simp [specOuts]
    | succ j =>
      simp only [specOuts, List.getElem?_cons_succ, ih (t + 1) j,
        show t + (j + 1) = t + 1 + j from by omega, Nat.add_lt_add_iff_right]

theorem specOuts_length (raw : Nat → Tensor) :
    ∀ (k t : Nat), (specOuts raw t k).length = k := by
  intro k
  induction k with
  | zero => intro t; rfl
  | succ k ih => intro t; simp [specOuts, ih]

/-- The generation-mode decoder loop, entered at step `t + 1` with the states
and previous output of the spec-side trace, produces exactly the spec-side
raw outputs, independently of the contents of the remaining decoder inputs. -/
theorem gen_loop_spec (args : Args) (h : args.test = true) (L : List Tensor) :
    ∀ t : Nat,
      rnn_decoder_loop (loop_rnn args) L (t + 1) (specGenState args (t + 1))
          (some (specGenRaw args t)) =
        (specOuts (specGenRaw args) (t + 1) L.length,
          specGenState args (t + 1 + L.length)) := by
  induction L with
  | nil => intro t; simp [rnn_decoder_loop, specOuts]
  | cons a L ih =>
    intro t
    have hin : loop_rnn args (specGenRaw args t) (t + 1) = specGenInput args (t + 1) := by
      simp [loop_rnn, h, specGenFeedback, specGenInput, specGenTrace, specGenRaw,
        specGenState]
    have hst : Tensor.nextState (specGenInput args (t + 1)) (specGenState args (t + 1)) =
        specGenState args (t + 2) := by
      simp [specGenInput, specGenState, specGenTrace]
    have hout : Tensor.cellOut (specGenInput args (t + 1)) (specGenState args (t + 1)) =
        specGenRaw args (t + 1) := rfl
    simp only [rnn_decoder_loop, hin, hst, hout, ih (t + 1), List.length_cons]
    rw [show t + 1 + (L.length + 1) = t + 1 + 1 + L.length from by omega]
    rfl

/-- In generation mode the raw decoder outputs are exactly the spec-side
autoregressive trace. -/
theorem gen_raw_spec (args : Args) (h : args.test = true) :
    rnn_raw_outputs args = specOuts (specGenRaw args) 0 args.sample_length := by
  unfold rnn_raw_outputs rnn_decoder
  cases hn : args.sample_length with
  | zero => simp [input_placeholders, hn, rnn_decoder_loop, specOuts]
  | succ n =>
    have hdec : input_placeholders args =
        Tensor.placeholder "input" 0 [args.batch_size, NB_NOTES] ::
          (List.range n).map
            (fun j => Tensor.placeholder "input" (j + 1) [args.batch_size, NB_NOTES]) := by
      simp [input_placeholders, hn, List.range_succ_eq_map, List.map_map, Function.comp]
    rw [hdec]
    simp only [rnn_decoder_loop]
    have h0 : Tensor.cellOut (Tensor.placeholder "input" 0 [args.batch_size, NB_NOTES])
        (initial_state args) = specGenRaw args 0 := rfl
    have hs0 : Tensor.nextState (Tensor.placeholder "input" 0 [args.batch_size, NB_NOTES])
        (initial_state args) = specGenState args 1 := rfl
    rw [h0, hs0, gen_loop_spec args h _ 0]
    simp [specOuts]

/-- The training-mode decoder loop, entered at step `t + 1` with the spec-side
teacher-forcing state, produces exactly the spec-side raw outputs — for any
previous output whatsoever. -/
theorem train_loop_spec (args : Args) (h : args.test = false) (L : List Tensor) :
    ∀ (t : Nat) (p : Tensor), t + 1 + L.length ≤ args.sample_length →
      rnn_decoder_loop (loop_rnn args) L (t + 1) (specTrainState args (t + 1)) (some p) =
        (specOuts (specTrainRaw args) (t + 1) L.length,
          specTrainState args (t + 1 + L.length)) := by
  induction L with
  | nil => intro t p _; simp [rnn_decoder_loop, specOuts]
  | cons a L ih =>
    intro t p hb
    have hin : loop_rnn args p (t + 1) =
        Tensor.placeholder "input" (t + 1) [args.batch_size, NB_NOTES] := by
      simp only [loop_rnn, h, Bool.false_eq_true, if_false]
      exact input_placeholders_getD args (t + 1) (by simp at hb; omega) _
    have hst : Tensor.nextState
        (Tensor.placeholder "input" (t + 1) [args.batch_size, NB_NOTES])
        (specTrainState args (t + 1)) = specTrainState args (t + 2) := rfl
    have hout : Tensor.cellOut
        (Tensor.placeholder "input" (t + 1) [args.batch_size, NB_NOTES])
        (specTrainState args (t + 1)) = specTrainRaw args (t + 1) := rfl
    simp only [rnn_decoder_loop, hin, hst, hout]
    rw [ih (t + 1) _ (by simp only [List.length_cons] at hb; omega)]
    simp only [List.length_cons]
    rw [show t + 1 + (L.length + 1) = t + 1 + 1 + L.length from by omega]
    rfl

/-- In training mode the raw decoder outputs are exactly the spec-side
teacher-forced trace: each step's effective input is its own input slot. -/
theorem train_raw_spec (args : Args) (h : args.test = false) :
    rnn_raw_outputs args = specOuts (specTrainRaw args) 0 args.sample_length := by
  unfold rnn_raw_outputs rnn_decoder
  cases hn : args.sample_length with
  | zero => simp [input_placeholders, hn, rnn_decoder_loop, specOuts]
  | succ n =>
    have hdec : input_placeholders args =
        Tensor.placeholder "input" 0 [args.batch_size, NB_NOTES] ::
          (List.range n).map
            (fun j => Tensor.placeholder "input" (j + 1) [args.batch_size, NB_NOTES]) := by
      simp [input_placeholders, hn, List.range_succ_eq_map, List.map_map, Function.comp]
    rw [hdec]
    simp only [rnn_decoder_loop]
    have h0 : Tensor.cellOut (Tensor.placeholder "input" 0 [args.batch_size, NB_NOTES])
        (initial_state args) = specTrainRaw args 0 := rfl
    have hs0 : Tensor.nextState (Tensor.placeholder "input" 0 [args.batch_size, NB_NOTES])
        (initial_state args) = specTrainState args 1 := rfl
    rw [h0, hs0, train_loop_spec args h _ 0 _ (by simp; omega)]
    simp [specOuts]

/-! ## The final projected outputs -/

theorem build_outputs_length (args : Args) :
    (Model.build args).outputs.length = args.sample_length := by
  simp [Model.build, final_outputs, rnn_raw_outputs, rnn_decoder,
    rnn_decoder_loop_length, input_placeholders_length]

theorem build_outputs_getElem?_gen (args : Args) (h : args.test = true) (t : Nat)
    (ht : t < args.sample_length) :
    (Model.build args).outputs[t]? = some (project_note args (specGenRaw args t)) := by
  show (final_outputs args)[t]? = _
  rw [final_outputs, List.getElem?_map, gen_raw_spec args h, specOuts_getElem?]
  simp [ht]

theorem build_outputs_getElem?_train (args : Args) (h : args.test = false) (t : Nat)
    (ht : t < args.sample_length) :
    (Model.build args).outputs[t]? = some (project_note args (specTrainRaw args t)) := by
  show (final_outputs args)[t]? = _
  rw [final_outputs, List.getElem?_map, train_raw_spec args h, specOuts_getElem?]
  simp [ht]

/-! ## No late input slot is consumed in generation mode -/

theorem gen_trace_no_late_input (args : Args) (j : Nat) (hj : 0 < j) :
    ∀ t : Nat, mentions_input j (specGenTrace args t).1 = false ∧
      mentions_input j (specGenTrace args t).2 = false := by
  intro t
  induction t with
  | zero =>
    constructor
    · simp only [specGenTrace, mentions_input]
      simp
      omega
    · simp [specGenTrace, initial_state, mentions_input]
  | succ t ih =>
    constructor
    · simp [specGenTrace, specGenFeedback, project_note, note_projection_W,
        note_projection_b, mentions_input, ih.1, ih.2]
    · simp [specGenTrace, mentions_input, ih.1, ih.2]

theorem specGenRaw_no_late_input (args : Args) (j : Nat) (hj : 0 < j) (t : Nat) :
    mentions_input j (specGenRaw args t) = false := by
  simp [specGenRaw, mentions_input, specGenInput, specGenState,
    (gen_trace_no_late_input args j hj t).1, (gen_trace_no_late_input args j hj t).2]

/-! ## All projection variables are the shared pair -/

theorem projVarsOnly_iff (args : Args) (T : Tensor) :
    projVarsOnly args T = true ↔
      ∀ v ∈ varsOf T, v = note_projection_W args ∨ v = note_projection_b args := by
  simp [projVarsOnly, List.all_eq_true]

theorem projVarsOnly_project_note (args : Args) (X : Tensor)
    (h : projVarsOnly args X = true) :
    projVarsOnly args (project_note args X) = true := by
  rw [projVarsOnly_iff] at h ⊢
  intro v hv
  simp only [project_note, note_projection_W, note_projection_b, varsOf,
    List.mem_append, List.mem_singleton] at hv
  rcases hv with (hv | rfl) | rfl
  · exact h v hv
  · left; rfl
  · right; rfl

theorem projVarsOnly_loop_rnn (args : Args) (p : Tensor) (i : Nat)
    (h : projVarsOnly args p = true) :
    projVarsOnly args (loop_rnn args p i) = true := by
  by_cases ht : args.test
  · simp only [loop_rnn, ht, if_true]
    rw [projVarsOnly_iff] at h ⊢
    intro v hv
    simp only [varsOf, project_note, note_projection_W, note_projection_b,
      List.mem_append, List.mem_singleton, List.not_mem_nil, false_or, or_false] at hv
    rcases hv with (hv | rfl) | rfl
    · exact h v hv
    · left; rfl
    · right; rfl
  · simp only [loop_rnn, ht, if_false]
    rcases Nat.lt_or_ge i args.sample_length with hi | hi
    · rw [input_placeholders_getD args i hi]
      simp [projVarsOnly, varsOf]
    · rw [List.getD_eq_default]
      · simp [projVarsOnly, varsOf]
      · rw [input_placeholders_length]; exact hi

theorem projVarsOnly_loop (args : Args) :
    ∀ (L : List Tensor) (i : Nat) (st : Tensor) (prev : Option Tensor),
      (∀ T ∈ L, projVarsOnly args T = true) → projVarsOnly args st = true →
      (∀ p, prev = some p → projVarsOnly args p = true) →
      ∀ T ∈ (rnn_decoder_loop (loop_rnn args) L i st prev).1,
        projVarsOnly args T = true := by
  intro L
  induction L with
  | nil => intro i st prev _ _ _ T hT; simp [rnn_decoder_loop] at hT
  | cons a L ih =>
    intro i st prev hL hst hprev T hT
    have key : ∀ e : Tensor, projVarsOnly args e = true →
        T ∈ (Tensor.cellOut e st ::
          (rnn_decoder_loop (loop_rnn args) L (i + 1) (Tensor.nextState e st)
            (some (Tensor.cellOut e st))).1) →
        projVarsOnly args T = true := by
      intro e he hmem
      have hOut : projVarsOnly args (Tensor.cellOut e st) = true := by
        rw [projVarsOnly_iff] at he hst ⊢
        intro v hv
        rcases List.mem_append.mp hv with hv | hv
        · exact he v hv
        · exact hst v hv
      have hSt : projVarsOnly args (Tensor.nextState e st) = true := by
        rw [projVarsOnly_iff] at he hst ⊢
        intro v hv
        rcases List.mem_append.mp hv with hv | hv
        · exact he v hv
        · exact hst v hv
      rcases List.mem_cons.mp hmem with rfl | hmem
      · exact hOut
      · exact ih (i + 1) _ _ (fun S hS => hL S (List.mem_cons_of_mem _ hS)) hSt
          (fun p hp => by cases hp; exact hOut) T hmem
    cases prev with
    | none =>
      refine key a (hL a (by simp)) ?_
      simpa [rnn_decoder_loop] using hT
    | some p =>
      refine key (loop_rnn args p i) (projVarsOnly_loop_rnn args p i (hprev p rfl)) ?_
      simpa [rnn_decoder_loop] using hT

theorem projVarsOnly_raw (args : Args) (T : Tensor) (hT : T ∈ rnn_raw_outputs args) :
    projVarsOnly args T = true := by
  refine projVarsOnly_loop args (input_placeholders args) 0 (initial_state args) none
    ?_ ?_ ?_ T hT
  · intro S hS
    simp only [input_placeholders, List.mem_map] at hS
    obtain ⟨i, _, rfl⟩ := hS
    simp [projVarsOnly, varsOf]
  · simp [initial_state, projVarsOnly, varsOf]
  · intro p hp; cases hp

theorem projVarsOnly_outputs (args : Args) (T : Tensor)
    (hT : T ∈ (Model.build args).outputs) :
    projVarsOnly args T = true := by
  have : T ∈ final_outputs args := hT
  simp only [final_outputs, List.mem_map] at this
  obtain ⟨R, hR, rfl⟩ := this
  exact projVarsOnly_project_note args R (projVarsOnly_raw args R hR)

/-! ## The feed dictionary built by `step` -/

theorem fdInsert_of_not_mem (fd : FeedDict) (k : Tensor) (v : Value)
    (h : ∀ p ∈ fd, p.1 ≠ k) : fdInsert fd k v = fd ++ [(k, v)] := by
  have hany : fd.any (fun p => decide (p.1 = k)) = false := by
    rw [List.any_eq_false]
    intro p hp
    simpa using h p hp
  simp [fdInsert, hany]

theorem expectedBinds_length (args : Args) (bi ts : List Value) :
    ∀ (k i : Nat), (expectedBinds args bi ts i k).length = 2 * k := by
  intro k
  induction k with
  | zero => intro i; rfl
  | succ k ih =>
    intro i
    simp only [expectedBinds, List.length_cons, ih (i + 1)]
    omega

theorem expectedBinds_mem (args : Args) (bi ts : List Value) :
    ∀ (k i j : Nat), i ≤ j → j < i + k →
      (Tensor.placeholder "input" j [args.batch_size, NB_NOTES], bi.getD j []) ∈
          expectedBinds args bi ts i k ∧
        (Tensor.placeholder "target" j [args.batch_size, NB_NOTES], ts.getD j []) ∈
          expectedBinds args bi ts i k := by
  intro k
  induction k with
  | zero => intro i j h1 h2; omega
  | succ k ih =>
    intro i j h1 h2
    rcases Nat.eq_or_lt_of_le h1 with rfl | hlt
    · constructor
      · simp [expectedBinds]
      · simp [expectedBinds]
    · have := ih (i + 1) j hlt (by omega)
      constructor
      · exact List.mem_cons_of_mem _ (List.mem_cons_of_mem _ this.1)
      · exact List.mem_cons_of_mem _ (List.mem_cons_of_mem _ this.2)

/-- The training-mode binding loop of `step`, run from index `i` for `k`
remaining iterations over a sufficiently long batch, succeeds and appends the
interleaved input/target bindings to the accumulated dictionary, provided the
accumulated dictionary holds no binding for a slot of index `≥ i`. -/
theorem feed_train_loop_spec (args : Args) (bi ts : List Value)
    (hbi : bi.length = args.sample_length) (hts : ts.length = args.sample_length) :
    ∀ (k i : Nat) (fd : FeedDict), i + k ≤ args.sample_length →
      (∀ p ∈ fd, ∀ j, i ≤ j →
        p.1 ≠ Tensor.placeholder "input" j [args.batch_size, NB_NOTES] ∧
        p.1 ≠ Tensor.placeholder "target" j [args.batch_size, NB_NOTES]) →
      feed_train_loop (Model.build args) ⟨bi, some ts⟩ i k fd =
        Except.ok (fd ++ expectedBinds args bi ts i k) := by
  intro k
  induction k with
  | zero => intro i fd _ _; simp [feed_train_loop, expectedBinds]
  | succ k ih =>
    intro i fd hik hfresh
    have hi : i < args.sample_length := by omega
    have hbiv : bi[i]? = some (bi.getD i []) := by
      rw [List.getElem?_eq_getElem (by omega), List.getD_eq_getElem bi [] (by omega)]
    have htsv : ts[i]? = some (ts.getD i []) := by
      rw [List.getElem?_eq_getElem (by omega), List.getD_eq_getElem ts [] (by omega)]
    have hinp : (Model.build args).inputs.getD i (Tensor.lit 0) =
        Tensor.placeholder "input" i [args.batch_size, NB_NOTES] :=
      input_placeholders_getD args i hi _
    have htgp : (Model.build args).targets.getD i (Tensor.lit 0) =
        Tensor.placeholder "target" i [args.batch_size, NB_NOTES] :=
      target_placeholders_getD args i hi _
    have hfd1 : fdInsert fd (Tensor.placeholder "input" i [args.batch_size, NB_NOTES])
        (bi.getD i []) =
        fd ++ [(Tensor.placeholder "input" i [args.batch_size, NB_NOTES], bi.getD i [])] :=
      fdInsert_of_not_mem _ _ _ (fun p hp => (hfresh p hp i (Nat.le_refl i)).1)
    have hfd2 : fdInsert
        (fd ++ [(Tensor.placeholder "input" i [args.batch_size, NB_NOTES], bi.getD i [])])
        (Tensor.placeholder "target" i [args.batch_size, NB_NOTES]) (ts.getD i []) =
        fd ++ [(Tensor.placeholder "input" i [args.batch_size, NB_NOTES], bi.getD i []),
          (Tensor.placeholder "target" i [args.batch_size, NB_NOTES], ts.getD i [])] := by
      rw [fdInsert_of_not_mem]
      · simp
      · intro p hp
        rcases List.mem_append.mp hp with hp | hp
        · exact (hfresh p hp i (Nat.le_refl i)).2
        · simp only [List.mem_singleton] at hp
          subst hp
          simp
    simp only [feed_train_loop, hbiv, htsv, hinp, htgp, hfd1, hfd2]
    rw [ih (i + 1) _ (by omega) ?_]
    · simp [expectedBinds]
    · intro p hp j hj
      rcases List.mem_append.mp hp with hp | hp
      · exact hfresh p hp j (by omega)
      · simp only [List.mem_cons, List.mem_singleton] at hp
        rcases hp with rfl | rfl | h
        · constructor
          · simp; omega
          · simp
        · constructor
          · simp
          · simp; omega
        · cases h

theorem rnn_raw_outputs_length (args : Args) :
    (rnn_raw_outputs args).length = args.sample_length := by
  simp [rnn_raw_outputs, rnn_decoder, rnn_decoder_loop_length, input_placeholders_length]

theorem range_map_const {α : Type} (c : α) :
    ∀ n : Nat, (List.range n).map (fun _ => c) = List.replicate n c := by
  intro n
  induction n with
  | zero => rfl
  | succ n ih => simp [List.range_succ, ih, List.replicate_succ']

/-- Training-mode `step` on a sufficiently long batch: the returned handle
tuple is the optimizer operation and the feed dictionary is the interleaved
input/target binding list. -/
theorem step_train (args : Args) (h : args.test = false) (bi ts : List Value)
    (hbi : bi.length = args.sample_length) (hts : ts.length = args.sample_length) :
    ((Model.build args).step ⟨bi, some ts⟩).1 =
      Except.ok ([Handle.op (Model.build args).opt_op],
        expectedBinds args bi ts 0 args.sample_length) := by
  have hloop := feed_train_loop_spec args bi ts hbi hts args.sample_length 0 []
    (by omega) (by intro p hp; cases hp)
  simp only [Model.build] at hloop
  simp only [Model.step, Model.build, h, if_true]
  rw [hloop]
  simp

/-- Generation-mode `step`: the returned handle tuple is the output sequence
and the feed dictionary binds exactly the first input slot to the first batch
array. -/
theorem step_gen (args : Args) (h : args.test = true) (h0 : 0 < args.sample_length)
    (b : Batch) (x0 : Value) (hx : b.inputs[0]? = some x0) :
    ((Model.build args).step b).1 =
      Except.ok ([Handle.outs (Model.build args).outputs],
        [(Tensor.placeholder "input" 0 [args.batch_size, NB_NOTES], x0)]) := by
  have hph : (Model.build args).inputs.getD 0 (Tensor.lit 0) =
      Tensor.placeholder "input" 0 [args.batch_size, NB_NOTES] :=
    input_placeholders_getD args 0 h0 _
  simp only [Model.build] at hph
  simp only [Model.step, Model.build, h, Bool.true_eq_false, if_false]
  rw [hx, hph]
  simp [fdInsert]

/-! ## The claims -/

/-- C1: in a generation-mode model the step-0 input is the externally supplied
slot; every later effective input is the previous raw recurrent output passed
through the shared projection and the rescaled sigmoid `2*sigmoid(x) - 1`; and
no input slot of positive index is consumed anywhere in the outputs. -/
theorem claim_C1_generation_autoregressive (args : Args) (h : args.test = true)
    (t s j : Nat) (ht : t < args.sample_length) (hj : 0 < j) :
    (Model.build args).outputs[t]? = some (project_note args (specGenRaw args t)) ∧
    specGenInput args 0 = Tensor.placeholder "input" 0 [args.batch_size, NB_NOTES] ∧
    specGenInput args (s + 1) =
      Tensor.sub (Tensor.mul (Tensor.lit 2)
        (Tensor.sigmoid (project_note args (specGenRaw args s)))) (Tensor.lit 1) ∧
    mentions_input j (specGenRaw args t) = false :=
  ⟨build_outputs_getElem?_gen args h t ht, rfl, rfl,
    specGenRaw_no_late_input args j hj t⟩

/-- Witness for C1 at the spec's generation scenario, step 2. -/
theorem claim_C1_witness :
    cfgGen.test = true ∧ (2 : Nat) < cfgGen.sample_length ∧ (0 : Nat) < 1 ∧
    ((Model.build cfgGen).outputs[2]? = some (project_note cfgGen (specGenRaw cfgGen 2)) ∧
     specGenInput cfgGen 0 = Tensor.placeholder "input" 0 [cfgGen.batch_size, NB_NOTES] ∧
     specGenInput cfgGen (1 + 1) =
       Tensor.sub (Tensor.mul (Tensor.lit 2)
         (Tensor.sigmoid (project_note cfgGen (specGenRaw cfgGen 1)))) (Tensor.lit 1) ∧
     mentions_input 1 (specGenRaw cfgGen 2) = false) :=
  ⟨rfl, by decide, by decide,
    claim_C1_generation_autoregressive cfgGen rfl 2 1 1 (by decide) (by decide)⟩

/-- C2: in a training-mode model every step's effective input is the
externally supplied input slot of that very step (teacher forcing); the
model's own prediction is never fed back. -/
theorem claim_C2_teacher_forcing (args : Args) (h : args.test = false)
    (t : Nat) (ht : t < args.sample_length) :
    (Model.build args).outputs[t]? =
      some (project_note args (Tensor.cellOut
        (Tensor.placeholder "input" t [args.batch_size, NB_NOTES])
        (specTrainState args t))) :=
  build_outputs_getElem?_train args h t ht

/-- Witness for C2 at the training configuration, step 3. -/
theorem claim_C2_witness :
    cfgTrain.test = false ∧ (3 : Nat) < cfgTrain.sample_length ∧
    (Model.build cfgTrain).outputs[3]? =
      some (project_note cfgTrain (Tensor.cellOut
        (Tensor.placeholder "input" 3 [cfgTrain.batch_size, NB_NOTES])
        (specTrainState cfgTrain 3))) :=
  ⟨rfl, by decide, claim_C2_teacher_forcing cfgTrain rfl 3 (by decide)⟩

/-- C3 (amended): construction produces exactly `sample_length` input slots
and exactly `sample_length` target slots in **both** modes (the targets are
merely unused in generation mode), each of shape
`(batch_size, note_vector_width)`. -/
theorem claim_C3_slot_counts (args : Args) (i : Nat) (hi : i < args.sample_length) :
    (Model.build args).inputs.length = args.sample_length ∧
    (Model.build args).targets.length = args.sample_length ∧
    (Model.build args).inputs[i]? =
      some (Tensor.placeholder "input" i [args.batch_size, NB_NOTES]) ∧
    (Model.build args).targets[i]? =
      some (Tensor.placeholder "target" i [args.batch_size, NB_NOTES]) :=
  ⟨input_placeholders_length args, target_placeholders_length args,
    input_placeholders_getElem? args i hi, target_placeholders_getElem? args i hi⟩

/-- Counterexample to C3 as stated: a generation-mode model also has all
`sample_length` target slots, so target slots are not produced "in training
mode only". -/
theorem claim_C3_counterexample :
    cfgGen.test = true ∧ (Model.build cfgGen).targets.length = 4 ∧
    (Model.build cfgGen).targets ≠ [] :=
  ⟨rfl, by decide, by decide⟩

/-- Witness for C3 (amended) at the generation scenario, slot 2. -/
theorem claim_C3_witness :
    (2 : Nat) < cfgGen.sample_length ∧
    ((Model.build cfgGen).inputs.length = cfgGen.sample_length ∧
     (Model.build cfgGen).targets.length = cfgGen.sample_length ∧
     (Model.build cfgGen).inputs[2]? =
       some (Tensor.placeholder "input" 2 [cfgGen.batch_size, NB_NOTES]) ∧
     (Model.build cfgGen).targets[2]? =
       some (Tensor.placeholder "target" 2 [cfgGen.batch_size, NB_NOTES])) :=
  ⟨by decide, claim_C3_slot_counts cfgGen 2 (by decide)⟩

/-- C4: in training mode, `step` on a batch with `sample_length` input and
target arrays returns exactly one handle — the Adam minimization step — and a
binding map of exactly `2 * sample_length` entries, binding every input slot
and every target slot to the corresponding batch array. -/
theorem claim_C4_training_step (args : Args) (h : args.test = false)
    (bi ts : List Value) (hbi : bi.length = args.sample_length)
    (hts : ts.length = args.sample_length) (i : Nat) (hi : i < args.sample_length) :
    ((Model.build args).step ⟨bi, some ts⟩).1 =
      Except.ok ([Handle.op (some (Op.adamMinimize args.learning_rate ((9 : Rat) / 10)
          ((999 : Rat) / 1000) ((1 : Rat) / 100000000) (loss_fct args)))],
        expectedBinds args bi ts 0 args.sample_length) ∧
    (expectedBinds args bi ts 0 args.sample_length).length = 2 * args.sample_length ∧
    (Tensor.placeholder "input" i [args.batch_size, NB_NOTES], bi.getD i []) ∈
      expectedBinds args bi ts 0 args.sample_length ∧
    (Tensor.placeholder "target" i [args.batch_size, NB_NOTES], ts.getD i []) ∈
      expectedBinds args bi ts 0 args.sample_length := by
  have hstep := step_train args h bi ts hbi hts
  have hopt : (Model.build args).opt_op =
      some (Op.adamMinimize args.learning_rate ((9 : Rat) / 10) ((999 : Rat) / 1000)
        ((1 : Rat) / 100000000) (loss_fct args)) := by
    simp [Model.build, opt_op_built, h]
  rw [hopt] at hstep
  exact ⟨hstep, expectedBinds_length args bi ts args.sample_length 0,
    (expectedBinds_mem args bi ts args.sample_length 0 i (Nat.zero_le i) (by omega)).1,
    (expectedBinds_mem args bi ts args.sample_length 0 i (Nat.zero_le i) (by omega)).2⟩

/-- Witness for C4 at the training scenario: 4 input and 4 target arrays. -/
theorem claim_C4_witness :
    cfgTrain.test = false ∧ (List.replicate 4 zeroNote).length = cfgTrain.sample_length ∧
    (0 : Nat) < cfgTrain.sample_length ∧
    (((Model.build cfgTrain).step
        ⟨List.replicate 4 zeroNote, some (List.replicate 4 zeroNote)⟩).1 =
      Except.ok ([Handle.op (some (Op.adamMinimize cfgTrain.learning_rate ((9 : Rat) / 10)
          ((999 : Rat) / 1000) ((1 : Rat) / 100000000) (loss_fct cfgTrain)))],
        expectedBinds cfgTrain (List.replicate 4 zeroNote) (List.replicate 4 zeroNote) 0
          cfgTrain.sample_length) ∧
     (expectedBinds cfgTrain (List.replicate 4 zeroNote) (List.replicate 4 zeroNote) 0
        cfgTrain.sample_length).length = 2 * cfgTrain.sample_length ∧
     (Tensor.placeholder "input" 0 [cfgTrain.batch_size, NB_NOTES],
        (List.replicate 4 zeroNote).getD 0 []) ∈
       expectedBinds cfgTrain (List.replicate 4 zeroNote) (List.replicate 4 zeroNote) 0
         cfgTrain.sample_length ∧
     (Tensor.placeholder "target" 0 [cfgTrain.batch_size, NB_NOTES],
        (List.replicate 4 zeroNote).getD 0 []) ∈
       expectedBinds cfgTrain (List.replicate 4 zeroNote) (List.replicate 4 zeroNote) 0
         cfgTrain.sample_length) :=
  ⟨rfl, by decide, by decide,
    claim_C4_training_step cfgTrain rfl (List.replicate 4 zeroNote)
      (List.replicate 4 zeroNote) (by decide) (by decide) 0 (by decide)⟩

/-- C5: in generation mode, `step` returns exactly one handle — the full
output sequence, of length `sample_length` — and a binding map with exactly
one entry, the first input slot bound to the batch's first input array; no
exception is raised when the first input array is present. -/
theorem claim_C5_generation_step (args : Args) (h : args.test = true)
    (h0 : 0 < args.sample_length) (b : Batch) (x0 : Value)
    (hx : b.inputs[0]? = some x0) :
    ((Model.build args).step b).1 =
      Except.ok ([Handle.outs (Model.build args).outputs],
        [(Tensor.placeholder "input" 0 [args.batch_size, NB_NOTES], x0)]) ∧
    (Model.build args).outputs.length = args.sample_length :=
  ⟨step_gen args h h0 b x0 hx, build_outputs_length args⟩

/-- Witness for C5 at the spec's scenario: batch size 1, sample length 4,
all-zeros first input array. -/
theorem claim_C5_witness :
    cfgGen.test = true ∧ (0 : Nat) < cfgGen.sample_length ∧
    (Batch.mk [zeroNote] none).inputs[0]? = some zeroNote ∧
    (((Model.build cfgGen).step ⟨[zeroNote], none⟩).1 =
      Except.ok ([Handle.outs (Model.build cfgGen).outputs],
        [(Tensor.placeholder "input" 0 [cfgGen.batch_size, NB_NOTES], zeroNote)]) ∧
     (Model.build cfgGen).outputs.length = cfgGen.sample_length) :=
  ⟨rfl, by decide, rfl, claim_C5_generation_step cfgGen rfl (by decide) ⟨[zeroNote], none⟩
    zeroNote rfl⟩

/-- C6: the projection applied to produce the output at every step is the one
shared weight/bias pair — the very same `tfVariable` nodes at every step, in
the per-step output projection and in the generation-mode feedback path; no
other projection variables exist in any output. -/
theorem claim_C6_shared_projection (args : Args) (t s : Nat)
    (ht : t < args.sample_length) (hs : s + 1 < args.sample_length) :
    (Model.build args).outputs[t]? =
      some (Tensor.add
        (Tensor.matmul ((rnn_raw_outputs args).getD t (Tensor.lit 0))
          (note_projection_W args))
        (note_projection_b args)) ∧
    projVarsOnly args ((Model.build args).outputs.getD t (Tensor.lit 0)) = true ∧
    (args.test = true → (rnn_raw_outputs args)[s + 1]? =
      some (Tensor.cellOut
        (Tensor.sub (Tensor.mul (Tensor.lit 2) (Tensor.sigmoid
          (Tensor.add (Tensor.matmul (specGenRaw args s) (note_projection_W args))
            (note_projection_b args))))
          (Tensor.lit 1))
        (specGenState args (s + 1)))) := by
  have hlen : t < (rnn_raw_outputs args).length := by rw [rnn_raw_outputs_length]; exact ht
  have holen : t < (Model.build args).outputs.length := by
    rw [build_outputs_length]; exact ht
  refine ⟨?_, ?_, ?_⟩
  · show (final_outputs args)[t]? = _
    rw [final_outputs, List.getElem?_map, List.getElem?_eq_getElem hlen,
      List.getD_eq_getElem (rnn_raw_outputs args) (Tensor.lit 0) hlen]
    rfl
  · have hmem : (Model.build args).outputs.getD t (Tensor.lit 0) ∈
        (Model.build args).outputs := by
      rw [List.getD_eq_getElem _ _ holen]
      exact List.getElem_mem holen
    exact projVarsOnly_outputs args _ hmem
  · intro hg
    rw [gen_raw_spec args hg, specOuts_getElem?]
    simp only [hs, if_pos, Nat.zero_add]
    rfl

/-- Witness for C6 at the generation scenario, output step 1, feedback step
`0 + 1`. -/
theorem claim_C6_witness :
    (1 : Nat) < cfgGen.sample_length ∧ (0 : Nat) + 1 < cfgGen.sample_length ∧
    ((Model.build cfgGen).outputs[1]? =
      some (Tensor.add
        (Tensor.matmul ((rnn_raw_outputs cfgGen).getD 1 (Tensor.lit 0))
          (note_projection_W cfgGen))
        (note_projection_b cfgGen)) ∧
     projVarsOnly cfgGen ((Model.build cfgGen).outputs.getD 1 (Tensor.lit 0)) = true ∧
     (cfgGen.test = true → (rnn_raw_outputs cfgGen)[0 + 1]? =
       some (Tensor.cellOut
         (Tensor.sub (Tensor.mul (Tensor.lit 2) (Tensor.sigmoid
           (Tensor.add (Tensor.matmul (specGenRaw cfgGen 0) (note_projection_W cfgGen))
             (note_projection_b cfgGen))))
           (Tensor.lit 1))
         (specGenState cfgGen (0 + 1))))) :=
  ⟨by decide, by decide, claim_C6_shared_projection cfgGen 1 0 (by decide) (by decide)⟩

/-- C7: two configurations differing only in the mode flag build models with
identical input slots; the training model's optimizer handle is the Adam
minimization step with the configured learning rate, betas 0.9 and 0.999 and
epsilon 1e-8, while the generation model's optimizer handle is null. -/
theorem claim_C7_mode_difference (args : Args) (_h0 : 0 < args.sample_length) :
    (Model.build { args with test := false }).inputs =
      (Model.build { args with test := true }).inputs ∧
    (Model.build { args with test := false }).opt_op =
      some (Op.adamMinimize args.learning_rate ((9 : Rat) / 10) ((999 : Rat) / 1000)
        ((1 : Rat) / 100000000) (loss_fct { args with test := false })) ∧
    (Model.build { args with test := true }).opt_op = none :=
  ⟨rfl, rfl, rfl⟩

/-- Witness for C7 at the scenario configuration. -/
theorem claim_C7_witness :
    (0 : Nat) < cfgGen.sample_length ∧
    ((Model.build { cfgGen with test := false }).inputs =
      (Model.build { cfgGen with test := true }).inputs ∧
     (Model.build { cfgGen with test := false }).opt_op =
      some (Op.adamMinimize cfgGen.learning_rate ((9 : Rat) / 10) ((999 : Rat) / 1000)
        ((1 : Rat) / 100000000) (loss_fct { cfgGen with test := false })) ∧
     (Model.build { cfgGen with test := true }).opt_op = none) :=
  ⟨by decide, claim_C7_mode_difference cfgGen (by decide)⟩

/-- C8 (amended): the training loss is a sequence loss of per-step sigmoid
binary cross-entropy between each **post-projection, pre-sigmoid** logit
vector (the projected outputs `self.outputs`) and the corresponding target,
with one all-ones weight tensor per step (no masking). -/
theorem claim_C8_loss_structure (args : Args) (h : args.test = false)
    (h0 : 0 < args.sample_length) :
    (Model.build args).opt_op =
      some (Op.adamMinimize args.learning_rate ((9 : Rat) / 10) ((999 : Rat) / 1000)
        ((1 : Rat) / 100000000) (loss_fct args)) ∧
    (loss_fct args).logits = (rnn_raw_outputs args).map (project_note args) ∧
    (loss_fct args).logits = (Model.build args).outputs ∧
    (loss_fct args).targets = (Model.build args).targets ∧
    (loss_fct args).weights =
      List.replicate args.sample_length (Tensor.ones [args.batch_size, NB_NOTES]) ∧
    (loss_fct args).softmax_loss_function = LossFn.sigmoid_cross_entropy_with_logits := by
  refine ⟨by simp [Model.build, opt_op_built, h], rfl, rfl, rfl, ?_, rfl⟩
  show (List.range (target_placeholders args).length).map _ = _
  rw [target_placeholders_getD args 0 h0, target_placeholders_length]
  exact range_map_const _ args.sample_length

/-- Counterexample to C8 as stated: the logit sequence handed to the loss is
the projected output sequence, not the pre-projection raw recurrent
outputs. -/
theorem claim_C8_counterexample :
    cfgTrain.test = false ∧
    (loss_fct cfgTrain).logits ≠ rnn_raw_outputs cfgTrain ∧
    (loss_fct cfgTrain).logits = (rnn_raw_outputs cfgTrain).map (project_note cfgTrain) :=
  ⟨rfl, by decide, rfl⟩

/-- Witness for C8 (amended) at the training configuration. -/
theorem claim_C8_witness :
    cfgTrain.test = false ∧ (0 : Nat) < cfgTrain.sample_length ∧
    ((Model.build cfgTrain).opt_op =
      some (Op.adamMinimize cfgTrain.learning_rate ((9 : Rat) / 10) ((999 : Rat) / 1000)
        ((1 : Rat) / 100000000) (loss_fct cfgTrain)) ∧
     (loss_fct cfgTrain).logits = (rnn_raw_outputs cfgTrain).map (project_note cfgTrain) ∧
     (loss_fct cfgTrain).logits = (Model.build cfgTrain).outputs ∧
     (loss_fct cfgTrain).targets = (Model.build cfgTrain).targets ∧
     (loss_fct cfgTrain).weights =
       List.replicate cfgTrain.sample_length (Tensor.ones [cfgTrain.batch_size, NB_NOTES]) ∧
     (loss_fct cfgTrain).softmax_loss_function =
       LossFn.sigmoid_cross_entropy_with_logits) :=
  ⟨rfl, by decide, claim_C8_loss_structure cfgTrain rfl (by decide)⟩

/-- C9: `step` mutates nothing — the post-call state of the model equals the
model before the call, field by field; the graph structure is untouched. -/
theorem claim_C9_step_pure (M : Model) (b : Batch) :
    (M.step b).2 = M ∧ (M.step b).2.args = M.args ∧ (M.step b).2.inputs = M.inputs ∧
    (M.step b).2.targets = M.targets ∧ (M.step b).2.opt_op = M.opt_op ∧
    (M.step b).2.outputs = M.outputs ∧ (M.step b).2.final_state = M.final_state := by
  have h : (M.step b).2 = M := by
    unfold Model.step
    split <;> rfl
  exact ⟨h, by rw [h], by rw [h], by rw [h], by rw [h], by rw [h], by rw [h]⟩

/-- C10: in generation mode, `step` reads only the first input array and never
the batch's targets: batches agreeing on the first input array give identical
results whatever their targets (even absent ones), and a targetless batch
succeeds at bind time. -/
theorem claim_C10_ignores_targets (args : Args) (h : args.test = true)
    (h0 : 0 < args.sample_length) (ins ins2 : List Value)
    (tg tg2 : Option (List Value)) (x0 : Value) (hx : ins[0]? = some x0)
    (heq : ins2[0]? = ins[0]?) :
    (Model.build args).step ⟨ins, tg⟩ = (Model.build args).step ⟨ins2, tg2⟩ ∧
    ((Model.build args).step ⟨ins, none⟩).1 =
      Except.ok ([Handle.outs (Model.build args).outputs],
        [(Tensor.placeholder "input" 0 [args.batch_size, NB_NOTES], x0)]) := by
  constructor
  · simp only [Model.step, Model.build, h, Bool.true_eq_false, if_false]
    rw [heq]
  · exact step_gen args h h0 ⟨ins, none⟩ x0 hx

/-- Witness for C10: a targetless batch and a batch with targets, agreeing on
the first input array. -/
theorem claim_C10_witness :
    cfgGen.test = true ∧ (0 : Nat) < cfgGen.sample_length ∧
    ([zeroNote] : List Value)[0]? = some zeroNote ∧
    ([zeroNote, zeroNote] : List Value)[0]? = ([zeroNote] : List Value)[0]? ∧
    ((Model.build cfgGen).step ⟨[zeroNote], none⟩ =
      (Model.build cfgGen).step ⟨[zeroNote, zeroNote], some [zeroNote]⟩ ∧
     ((Model.build cfgGen).step ⟨[zeroNote], none⟩).1 =
      Except.ok ([Handle.outs (Model.build cfgGen).outputs],
        [(Tensor.placeholder "input" 0 [cfgGen.batch_size, NB_NOTES], zeroNote)])) :=
  ⟨rfl, by decide, rfl, rfl,
    claim_C10_ignores_targets cfgGen rfl (by decide) [zeroNote] [zeroNote, zeroNote]
      none (some [zeroNote]) zeroNote rfl rfl⟩

end DeepMusic
